import Mathlib

/-!
Verification development for the scrape-and-normalize pipeline of
`src/app.py` (book-scraper-streamlit).

The pipeline is shallowly embedded:
* Python strings are `String` (a list of code points, matching Python's
  code-point view of `str`); slicing `s[1:]` is `pyDrop1`, `str.strip()`
  is `pyStripS`, `str.replace(old, new)` is `pyReplace`.
* `float(s)` (source line 34: `float(price[1:])`) is `pyFloat`, returning
  the exact rational value of the decimal literal.  CPython in addition
  accepts `inf`/`nan` spellings (which have no rational value), digit
  underscores and non-ASCII decimal digits; those inputs are modelled as
  parse failures and no claim under study touches them.
* `requests.get` plus the BeautifulSoup parse of the body is a `Site`
  function `Url → Option Doc`: `none` models the request raising
  (a `FetchError` in the spec's taxonomy), `some doc` a parsed document.
  A `Doc` answers the two queries the program performs:
  `find_all("article", class_="product_pod")` (field `pods`) and
  `find("ul", class_="breadcrumb")` followed by `find_all("li")`
  (field `breadcrumbLis`, `none` when the element is absent).
* Python exceptions that can escape `scrape_books` are `PyErr`:
  `fetchErr` (requests exception = spec `FetchError`), `attrErr` /
  `indexErr` (AttributeError / IndexError on structural lookups = spec
  `ParseError`), `valueErr` (ValueError from `float` = spec `FormatError`).
* The five parallel lists `titles, prices, availabilities, ratings,
  categories` are appended in lockstep (source lines 33-37), so they are
  modelled as one list of `RawRow` records; the `pd.DataFrame` column
  names of lines 39-45 are recorded by `dfColumns`.
* Network effects are the trace of URLs passed to `requests.get`, in
  order; every scraping function returns `(trace, outcome)`.
-/

attribute [local semireducible] Rat.add Rat.mul Rat.inv Rat.sub

/-- The six ASCII whitespace characters Python's `str.strip()` (and the
whitespace tolerance of `float`) removes.  Python also strips some further
Unicode spaces; no input under study contains them. -/
def pySpace (c : Char) : Bool :=
  c == ' ' || c == '\t' || c == '\n' || c == '\r' || c == '\x0b' || c == '\x0c'

/-- Python `str.strip()` on the underlying code-point list. -/
def pyStrip (l : List Char) : List Char :=
  ((l.dropWhile pySpace).reverse.dropWhile pySpace).reverse

/-- Python `str.strip()`. -/
def pyStripS (s : String) : String := ⟨pyStrip s.data⟩

/-- Python `s[1:]`: drop the first code point (never fails, `""[1:] = ""`). -/
def pyDrop1 (s : String) : String := ⟨s.data.drop 1⟩

/-- Value of a list of ASCII digits read in base 10. -/
def digitsToNat (l : List Char) : Nat :=
  l.foldl (fun a c => 10 * a + (c.toNat - 48)) 0

/-- The integer-dot-fraction part of a Python float literal: returns its
exact rational value and the unconsumed remainder, or `none` when no digit
is present. -/
def parseMantissa (l : List Char) : Option (ℚ × List Char) :=
  let ip := l.takeWhile Char.isDigit
  let r1 := l.dropWhile Char.isDigit
  match r1 with
  | '.' :: r2 =>
    let fp := r2.takeWhile Char.isDigit
    let r3 := r2.dropWhile Char.isDigit
    if ip = [] ∧ fp = [] then none
    else some ((digitsToNat ip : ℚ) + (digitsToNat fp : ℚ) / ((10 : ℚ) ^ fp.length), r3)
  | _ => if ip = [] then none else some ((digitsToNat ip : ℚ), r1)

/-- Exponent digits after `e`/`E`: optional sign then at least one digit,
consuming the whole rest. -/
def parseExpPart (l : List Char) : Option Int :=
  match l with
  | '+' :: r => if r ≠ [] ∧ r.all Char.isDigit then some (digitsToNat r : Int) else none
  | '-' :: r => if r ≠ [] ∧ r.all Char.isDigit then some (-(digitsToNat r : Int)) else none
  | r => if r ≠ [] ∧ r.all Char.isDigit then some (digitsToNat r : Int) else none

/-- The spellings CPython's `float` maps to infinities and NaN
(case-insensitive, after the optional sign). -/
def infNanWords : List (List Char) :=
  [['i','n','f'], ['i','n','f','i','n','i','t','y'], ['n','a','n']]

/-- True when the (sign-stripped) input is an `inf`/`infinity`/`nan`
spelling; such inputs denote no rational value and are modelled as parse
failures (see the header comment). -/
def isInfNan (l : List Char) : Bool :=
  infNanWords.contains (l.map Char.toLower)

/-- Python's `float(s)` on a decimal string: strip whitespace, optional
sign, digits with optional fraction dot, optional `e`/`E` exponent; the
exact rational value of the literal, `none` when `float` raises
`ValueError`. -/
def pyFloat (s : String) : Option ℚ :=
  let l := pyStrip s.data
  let sgn : ℚ := match l with | '-' :: _ => -1 | _ => 1
  let l1 : List Char := match l with | '-' :: r => r | '+' :: r => r | r => r
  if isInfNan l1 then none
  else
    match parseMantissa l1 with
    | none => none
    | some (m, rest) =>
      match rest with
      | [] => some (sgn * m)
      | 'e' :: r =>
        (match parseExpPart r with
         | none => none
         | some e => some (sgn * m * (10 : ℚ) ^ e))
      | 'E' :: r =>
        (match parseExpPart r with
         | none => none
         | some e => some (sgn * m * (10 : ℚ) ^ e))
      | _ => none

/-- Source line 34, `float(price[1:])`: drop the first code point of the
price text (whatever it is) and parse the remainder with `float`. -/
def parsePrice (s : String) : Option ℚ := pyFloat (pyDrop1 s)

/-- Worker for `pyReplaceL`; the fuel argument only forces structural
recursion and every step consumes at least one character, so starting the
fuel at the input length (as `pyReplaceL` does) never exhausts it. -/
def pyReplaceAux (old new : List Char) : Nat → List Char → List Char
  | _, [] => []
  | 0, s => s
  | fuel + 1, c :: rest =>
    if 0 < old.length ∧ old <+: (c :: rest) then
      new ++ pyReplaceAux old new fuel (rest.drop (old.length - 1))
    else
      c :: pyReplaceAux old new fuel rest

/-- Python `str.replace(old, new)` on code-point lists: scan left to
right, replacing each non-overlapping occurrence of `old` and resuming
after it.  (Python's behaviour for `old = ""` differs but the program only
replaces the non-empty `"../../../"`.) -/
def pyReplaceL (old new s : List Char) : List Char := pyReplaceAux old new s.length s

/-- Python `str.replace(old, new)`. -/
def pyReplace (s old new : String) : String := ⟨pyReplaceL old.data new.data s.data⟩

/-- Source line 28: `"http://books.toscrape.com/catalogue/" +
book_relative_url.replace('../../../', '')`. -/
def book_url (href : String) : String :=
  "http://books.toscrape.com/catalogue/" ++ pyReplace href "../../../" ""

/-- Modelled from the spec: spec §4.1 step 5 resolves the relative detail
link "by stripping a fixed `../../../` prefix and prepending the catalogue
base path" — i.e. one leading occurrence is stripped, the rest kept
verbatim.  Second definition, kept for comparison with `book_url`. -/
def specDetailUrl (href : String) : String :=
  "http://books.toscrape.com/catalogue/" ++
    (if "../../../".data <+: href.data then (⟨href.data.drop 9⟩ : String) else href)

/-- Source line 17: the listing-page URL template
`f"http://books.toscrape.com/catalogue/page-{page}.html"`. -/
def pageUrl (page : Nat) : String :=
  "http://books.toscrape.com/catalogue/page-" ++ toString page ++ ".html"

/-- The column names of the DataFrame built at source lines 39-45, in dict
order.  `load_data` (line 58) reassigns the `Rating` column in place, so
the normalized table has the same columns. -/
def dfColumns : List String := ["Title", "Price", "Availability", "Rating", "Category"]

/-- One `article.product_pod` element of a listing page, carrying exactly
the pieces the program reads from it (source lines 23-27): the `title`
attribute of `h3 > a`, the text of `p.price_color`, the raw text of
`p.instock.availability`, the class list of the first `p` (the star-rating
element; line 26 takes its second token), and the `href` of `h3 > a`. -/
structure Pod where
  title : String
  priceText : String
  availabilityText : String
  pClasses : List String
  href : String
  deriving Repr, DecidableEq

/-- A fetched-and-parsed document, answering the two structural queries
the program performs: `pods` is the result of
`find_all("article", class_="product_pod")` (line 20; empty list when the
page has none), `breadcrumbLis` is the list of `li` texts inside
`ul.breadcrumb` (line 31), `none` when that `ul` is absent (in which case
`.find_all` on `None` raises AttributeError). -/
structure Doc where
  pods : List Pod
  breadcrumbLis : Option (List String)
  deriving Repr, DecidableEq

abbrev Url := String

/-- The site as seen through `requests.get` + BeautifulSoup: `none` means
the request raised (spec `FetchError`). -/
abbrev Site := Url → Option Doc

/-- The Python exceptions that can escape `scrape_books`, tagged with the
spec's taxonomy: `fetchErr` = `FetchError` (requests exception),
`attrErr`/`indexErr` = `ParseError` (AttributeError / IndexError on a
structural lookup), `valueErr` = `FormatError` (ValueError from `float`,
carrying the failing argument). -/
inductive PyErr where
  | fetchErr (url : Url)
  | attrErr
  | indexErr
  | valueErr (s : String)
  deriving Repr, DecidableEq

/-- One raw record of the scrape, i.e. one synchronized row of the five
parallel lists of source lines 33-37 (DataFrame columns Title, Price,
Availability, Rating, Category).  `price` is already a number because the
source applies `float` at append time (line 34); `rating` is still the
word token. -/
structure RawRow where
  title : String
  price : ℚ
  availability : String
  rating : String
  category : String
  deriving Repr, DecidableEq

/-- A row after `load_data`'s rating mapping: `rating` is `none` when the
token was unmapped (pandas `.map` produces NaN there, line 58). -/
structure BookRow where
  title : String
  price : ℚ
  availability : String
  rating : Option Nat
  category : String
  deriving Repr, DecidableEq

/-- The inner per-book loop of `scrape_books` (source lines 22-37) over
the pods of one listing page.  Returns the detail-page fetch trace and
either the rows of this page or the first exception, in Python evaluation
order: line 26 (`book.p["class"][1]`, IndexError possible) runs before the
detail fetch of line 29; the breadcrumb lookups of line 31 run before the
`float` of line 34. -/
def scrapePods (site : Site) : List Pod → List Url × Except PyErr (List RawRow)
  | [] => ([], .ok [])
  | book :: rest =>
    match book.pClasses[1]? with
    | none => ([], .error .indexErr)
    | some tok =>
      match site (book_url book.href) with
      | none => ([book_url book.href], .error (.fetchErr (book_url book.href)))
      | some d =>
        match d.breadcrumbLis with
        | none => ([book_url book.href], .error .attrErr)
        | some lis =>
          match lis[2]? with
          | none => ([book_url book.href], .error .indexErr)
          | some catRaw =>
            match parsePrice book.priceText with
            | none => ([book_url book.href], .error (.valueErr (pyDrop1 book.priceText)))
            | some p =>
              let out := scrapePods site rest
              (book_url book.href :: out.1,
               out.2.map (fun rs =>
                 ({ title := book.title, price := p,
                    availability := pyStripS book.availabilityText,
                    rating := tok, category := pyStripS catRaw } : RawRow) :: rs))

/-- One iteration of the outer page loop (source lines 16-21): fetch the
listing page, run `find_all` for pods, then the per-book loop. -/
def scrapePage (site : Site) (page : Nat) : List Url × Except PyErr (List RawRow) :=
  match site (pageUrl page) with
  | none => ([pageUrl page], .error (.fetchErr (pageUrl page)))
  | some doc =>
    let out := scrapePods site doc.pods
    (pageUrl page :: out.1, out.2)

/-- The outer loop over a list of page numbers; an exception on one page
aborts the remaining pages (Python exception propagation). -/
def scrapePages (site : Site) : List Nat → List Url × Except PyErr (List RawRow)
  | [] => ([], .ok [])
  | n :: ns =>
    let po := scrapePage site n
    match po.2 with
    | .error e => (po.1, .error e)
    | .ok rows =>
      let out := scrapePages site ns
      (po.1 ++ out.1, out.2.map (fun rs => rows ++ rs))

/-- `range(1, 6)` of source line 16: the pages visited, in order. -/
def pageRange : List Nat := [1, 2, 3, 4, 5]

/-- `scrape_books()` (source lines 14-45) against a given site: the fetch
trace and either the full raw table or the first exception. -/
def scrape_books (site : Site) : List Url × Except PyErr (List RawRow) :=
  scrapePages site pageRange

/-- The `rating_map` dict of source lines 51-57, as pandas `.map` uses it:
a lookup returning `none` (NaN) for keys outside the dict. -/
def rating_map (t : String) : Option Nat :=
  if t = "One" then some 1
  else if t = "Two" then some 2
  else if t = "Three" then some 3
  else if t = "Four" then some 4
  else if t = "Five" then some 5
  else none

/-- The per-row effect of `df['Rating'] = df['Rating'].map(rating_map)`
(source line 58): only the rating changes representation. -/
def normalizeRow (r : RawRow) : BookRow :=
  { title := r.title, price := r.price, availability := r.availability,
    rating := rating_map r.rating, category := r.category }

/-- `load_data()` (source lines 48-59): run `scrape_books` and map the
rating column; pandas `.map` never raises on unmapped keys. -/
def load_data (site : Site) : List Url × Except PyErr (List BookRow) :=
  let out := scrape_books site
  (out.1, out.2.map (fun rs => rs.map normalizeRow))

/-- The record the per-book loop body would produce for one pod, `none`
when some step of lines 23-34 raises.  Mirror of one iteration of
`scrapePods`, used to state which rows a successful scrape emits; the
lemma `scrapePods_eq_ok` proves the two agree. -/
def rowOf (site : Site) (book : Pod) : Option RawRow :=
  match book.pClasses[1]? with
  | none => none
  | some tok =>
    match site (book_url book.href) with
    | none => none
    | some d =>
      match d.breadcrumbLis with
      | none => none
      | some lis =>
        match lis[2]? with
        | none => none
        | some catRaw =>
          match parsePrice book.priceText with
          | none => none
          | some p =>
            some { title := book.title, price := p,
                   availability := pyStripS book.availabilityText,
                   rating := tok, category := pyStripS catRaw }

/-- A listing document with no `article.product_pod` and no breadcrumb. -/
def emptyListingDoc : Doc := { pods := [], breadcrumbLis := none }

/-- The single pod of the end-to-end fixture (spec §8's scenario). -/
def fixturePod : Pod :=
  { title := "A Light in the Attic", priceText := "£51.77",
    availabilityText := "\n    In stock\n",
    pClasses := ["star-rating", "Three"],
    href := "a-light-in-the-attic_1000/index.html" }

/-- The fixture book's detail page: a breadcrumb whose third `li` is the
Poetry category. -/
def fixtureDetailDoc : Doc :=
  { pods := [], breadcrumbLis := some ["Home", "Books", " Poetry ", "A Light in the Attic"] }

/-- The end-to-end fixture site: page 1 lists exactly the fixture book,
the remaining pages the program unconditionally visits are empty, the
book's detail page resolves; every other URL fails to fetch. -/
def fixtureSite : Site := fun u =>
  if u = pageUrl 1 then some { pods := [fixturePod], breadcrumbLis := none }
  else if u = pageUrl 2 ∨ u = pageUrl 3 ∨ u = pageUrl 4 ∨ u = pageUrl 5 then
    some emptyListingDoc
  else if u = book_url fixturePod.href then some fixtureDetailDoc
  else none

/-- A pod whose rating element carries the unmapped token `"Six"`. -/
def sixPod : Pod :=
  { title := "T", priceText := "£10.00", availabilityText := "In stock",
    pClasses := ["star-rating", "Six"], href := "t_1/index.html" }

/-- Site whose only book has rating token `"Six"`. -/
def siteSix : Site := fun u =>
  if u = pageUrl 1 then some { pods := [sixPod], breadcrumbLis := none }
  else if u = pageUrl 2 ∨ u = pageUrl 3 ∨ u = pageUrl 4 ∨ u = pageUrl 5 then
    some emptyListingDoc
  else if u = book_url sixPod.href then
    some { pods := [], breadcrumbLis := some ["Home", "Books", "Cat"] }
  else none

/-- Site whose five listing pages all fetch fine but contain no
product-pod container at all. -/
def sitePodless : Site := fun u =>
  if u = pageUrl 1 ∨ u = pageUrl 2 ∨ u = pageUrl 3 ∨ u = pageUrl 4 ∨ u = pageUrl 5 then
    some emptyListingDoc
  else none

/-- Site where the fixture book's detail-page fetch raises: page 1 lists
the book but its detail URL (and everything else) fails. -/
def siteDetailFail : Site := fun u =>
  if u = pageUrl 1 then some { pods := [fixturePod], breadcrumbLis := none }
  else if u = pageUrl 2 ∨ u = pageUrl 3 ∨ u = pageUrl 4 ∨ u = pageUrl 5 then
    some emptyListingDoc
  else none

/-- Pods for the 2-pages-of-3-books ordering fixture; titles record the
traversal position, all share one detail link. -/
def ordPod (t : String) : Pod :=
  { title := t, priceText := "£1.00", availabilityText := "In stock",
    pClasses := ["star-rating", "One"], href := "b_1/index.html" }

/-- Documents of the ordering fixture: page 1 and page 2 carry three books
each in document order, pages 3-5 are empty. -/
def ordDocs (n : Nat) : Doc :=
  if n = 1 then { pods := [ordPod "p1b1", ordPod "p1b2", ordPod "p1b3"], breadcrumbLis := none }
  else if n = 2 then { pods := [ordPod "p2b1", ordPod "p2b2", ordPod "p2b3"], breadcrumbLis := none }
  else emptyListingDoc

/-- The ordering fixture site. -/
def ordSite : Site := fun u =>
  if u = pageUrl 1 then some (ordDocs 1)
  else if u = pageUrl 2 then some (ordDocs 2)
  else if u = pageUrl 3 ∨ u = pageUrl 4 ∨ u = pageUrl 5 then some emptyListingDoc
  else if u = book_url "b_1/index.html" then
    some { pods := [], breadcrumbLis := some ["Home", "Books", "Fiction"] }
  else none

/-- Documents of the uniform fetch-count fixture: every page lists the
same single book. -/
def uniDocs (_n : Nat) : Doc := { pods := [ordPod "u"], breadcrumbLis := none }

/-- Uniform site: each of the five pages lists one book, so a completed
run performs 5 × (1 + 1) fetches. -/
def uniSite : Site := fun u =>
  if u = pageUrl 1 ∨ u = pageUrl 2 ∨ u = pageUrl 3 ∨ u = pageUrl 4 ∨ u = pageUrl 5 then
    some (uniDocs 0)
  else if u = book_url "b_1/index.html" then
    some { pods := [], breadcrumbLis := some ["Home", "Books", "Fiction"] }
  else none

/-- A pod whose detail page will be structurally deficient. -/
def badPod : Pod :=
  { title := "B", priceText := "£2.00", availabilityText := "x",
    pClasses := ["star-rating", "Two"], href := "bb_1/index.html" }

/-- Site whose one detail page has no `ul.breadcrumb` at all. -/
def siteNoCrumb : Site := fun u =>
  if u = book_url "bb_1/index.html" then some { pods := [], breadcrumbLis := none }
  else if u = pageUrl 1 then some emptyListingDoc
  else none

/-- Site whose one detail page has a breadcrumb with only two `li` items. -/
def siteShortCrumb : Site := fun u =>
  if u = book_url "bb_1/index.html" then some { pods := [], breadcrumbLis := some ["Home", "Books"] }
  else none

/-- A pod whose price text has a malformed numeric part. -/
def badPricePod : Pod :=
  { title := "P", priceText := "£abc", availabilityText := "x",
    pClasses := ["star-rating", "One"], href := "pp_1/index.html" }

/-- Site whose one book has the malformed price text. -/
def sitePriceBad : Site := fun u =>
  if u = book_url "pp_1/index.html" then
    some { pods := [], breadcrumbLis := some ["Home", "Books", "C"] }
  else if u = pageUrl 1 then some { pods := [badPricePod], breadcrumbLis := none }
  else none

/-- An infix of a list is an infix of any extension on the left. -/
lemma infixCons {α : Type} {l₁ l₂ : List α} {c : α} (h : l₁ <:+: l₂) : l₁ <:+: c :: l₂ := by
  obtain ⟨s, t, rfl⟩ := h
  exact ⟨c :: s, t, by simp⟩

/-- `pyReplaceAux` leaves a string without any occurrence of the pattern
unchanged, whatever the fuel. -/
lemma pyReplaceAux_no_occ (old new : List Char) :
    ∀ (fuel : Nat) (s : List Char), ¬ old <:+: s → pyReplaceAux old new fuel s = s := by
  intro fuel
  induction fuel with
  | zero => intro s _; cases s <;> rfl
  | succ n ih =>
    intro s hs
    cases s with
    | nil => rfl
    | cons c rest =>
      have hnp : ¬ (0 < old.length ∧ old <+: (c :: rest)) := by
        rintro ⟨-, hp⟩
        exact hs hp.isInfix
      simp only [pyReplaceAux, if_neg hnp]
      exact congrArg (c :: ·) (ih rest (fun h => hs (infixCons h)))

/-- `pyReplaceAux` consumes a leading occurrence of the pattern. -/
lemma pyReplaceAux_head (old new rest : List Char) (ho : old ≠ []) (fuel : Nat) :
    pyReplaceAux old new (fuel + 1) (old ++ rest) = new ++ pyReplaceAux old new fuel rest := by
  obtain ⟨o, os, rfl⟩ := List.exists_cons_of_ne_nil ho
  have hp : (0 : Nat) < (o :: os).length ∧ (o :: os) <+: (o :: os ++ rest) := by
    constructor
    · simp
    · exact List.prefix_append (o :: os) rest
  show pyReplaceAux (o :: os) new (fuel + 1) (o :: (os ++ rest)) = _
  simp only [pyReplaceAux]
  rw [if_pos]
  · congr 1
    congr 1
    simp [List.drop_left]
  · exact hp

/-- Python `replace` is the identity when the pattern does not occur. -/
lemma pyReplaceL_no_occ (old new s : List Char) (hs : ¬ old <:+: s) :
    pyReplaceL old new s = s :=
  pyReplaceAux_no_occ old new s.length s hs

/-- Python `replace` on a string that starts with the pattern and has no
further occurrence replaces exactly that leading occurrence. -/
lemma pyReplaceL_head_only (old new rest : List Char) (ho : old ≠ []) (hs : ¬ old <:+: rest) :
    pyReplaceL old new (old ++ rest) = new ++ rest := by
  obtain ⟨o, os, rfl⟩ := List.exists_cons_of_ne_nil ho
  show pyReplaceAux (o :: os) new (o :: (os ++ rest)).length (o :: os ++ rest) = new ++ rest
  have hl : (o :: (os ++ rest)).length = (os ++ rest).length + 1 := by simp
  rw [hl, pyReplaceAux_head (o :: os) new rest ho ((os ++ rest).length),
      pyReplaceAux_no_occ (o :: os) new _ rest hs]

lemma scrapePods_eq_ok (site : Site) (pods : List Pod)
    (h : ∀ b ∈ pods, (rowOf site b).isSome) :
    scrapePods site pods =
      (pods.map (fun b => book_url b.href), .ok (pods.filterMap (rowOf site))) := by
  induction pods with
  | nil => rfl
  | cons b rest ih =>
    have hb : (rowOf site b).isSome := h b (List.mem_cons_self b rest)
    have ih' := ih (fun x hx => h x (List.mem_cons_of_mem b hx))
    cases h1 : b.pClasses[1]? with
    | none => simp [rowOf, h1] at hb
    | some tok =>
      cases h2 : site (book_url b.href) with
      | none => simp [rowOf, h1, h2] at hb
      | some d =>
        cases h3 : d.breadcrumbLis with
        | none => simp [rowOf, h1, h2, h3] at hb
        | some lis =>
          cases h4 : lis[2]? with
          | none => simp [rowOf, h1, h2, h3, h4] at hb
          | some catRaw =>
            cases h5 : parsePrice b.priceText with
            | none => simp [rowOf, h1, h2, h3, h4, h5] at hb
            | some p =>
              simp [scrapePods, rowOf, h1, h2, h3, h4, h5, ih', Except.map]

lemma scrapePage_eq_ok (site : Site) (n : Nat) (doc : Doc)
    (hd : site (pageUrl n) = some doc)
    (h : ∀ b ∈ doc.pods, (rowOf site b).isSome) :
    scrapePage site n =
      (pageUrl n :: doc.pods.map (fun b => book_url b.href),
       .ok (doc.pods.filterMap (rowOf site))) := by
  simp [scrapePage, hd, scrapePods_eq_ok site doc.pods h]

lemma scrapePages_eq_ok (site : Site) (ns : List Nat) (docs : Nat → Doc)
    (hd : ∀ n ∈ ns, site (pageUrl n) = some (docs n))
    (h : ∀ n ∈ ns, ∀ b ∈ (docs n).pods, (rowOf site b).isSome) :
    scrapePages site ns =
      ((ns.map (fun n => pageUrl n :: (docs n).pods.map (fun b => book_url b.href))).flatten,
       .ok ((ns.map (fun n => (docs n).pods.filterMap (rowOf site))).flatten)) := by
  induction ns with
  | nil => rfl
  | cons n ns ih =>
    have hpage := scrapePage_eq_ok site n (docs n) (hd n (List.mem_cons_self n ns))
      (h n (List.mem_cons_self n ns))
    have ih' := ih (fun m hm => hd m (List.mem_cons_of_mem n hm))
      (fun m hm => h m (List.mem_cons_of_mem n hm))
    simp [scrapePages, hpage, ih', Except.map]

lemma scrapePods_fetch_fail (site : Site) (u : Url) :
    ∀ pods : List Pod, u ∈ (scrapePods site pods).1 → site u = none →
      (scrapePods site pods).2 = .error (.fetchErr u) := by
  intro pods
  induction pods with
  | nil => intro hu _; simp [scrapePods] at hu
  | cons b rest ih =>
    intro hu hf
    cases h1 : b.pClasses[1]? with
    | none => simp [scrapePods, h1] at hu
    | some tok =>
      cases h2 : site (book_url b.href) with
      | none =>
        simp only [scrapePods, h1, h2] at hu ⊢
        simp at hu
        subst hu
        rfl
      | some d =>
        have hne : u ≠ book_url b.href := by
          intro he
          rw [he, h2] at hf
          exact Option.noConfusion hf
        cases h3 : d.breadcrumbLis with
        | none =>
          simp only [scrapePods, h1, h2, h3] at hu
          simp at hu
          exact absurd hu hne
        | some lis =>
          cases h4 : lis[2]? with
          | none =>
            simp only [scrapePods, h1, h2, h3, h4] at hu
            simp at hu
            exact absurd hu hne
          | some catRaw =>
            cases h5 : parsePrice b.priceText with
            | none =>
              simp only [scrapePods, h1, h2, h3, h4, h5] at hu
              simp at hu
              exact absurd hu hne
            | some p =>
              simp only [scrapePods, h1, h2, h3, h4, h5] at hu ⊢
              simp at hu
              rcases hu with hu | hu
              · exact absurd hu hne
              · rw [ih hu hf]
                rfl

lemma scrapePage_fetch_fail (site : Site) (n : Nat) (u : Url)
    (hu : u ∈ (scrapePage site n).1) (hf : site u = none) :
    (scrapePage site n).2 = .error (.fetchErr u) := by
  cases hd : site (pageUrl n) with
  | none =>
    simp only [scrapePage, hd] at hu ⊢
    simp at hu
    subst hu
    rfl
  | some doc =>
    have hne : u ≠ pageUrl n := by
      intro he
      rw [he, hd] at hf
      exact Option.noConfusion hf
    simp only [scrapePage, hd] at hu ⊢
    simp at hu
    rcases hu with hu | hu
    · exact absurd hu hne
    · exact scrapePods_fetch_fail site u doc.pods hu hf

lemma scrapePages_fetch_fail (site : Site) (u : Url) :
    ∀ ns : List Nat, u ∈ (scrapePages site ns).1 → site u = none →
      (scrapePages site ns).2 = .error (.fetchErr u) := by
  intro ns
  induction ns with
  | nil => intro hu _; simp [scrapePages] at hu
  | cons n ns ih =>
    intro hu hf
    cases hpo : (scrapePage site n).2 with
    | error e =>
      simp only [scrapePages, hpo] at hu ⊢
      have := scrapePage_fetch_fail site n u hu hf
      rw [hpo] at this
      exact this.symm ▸ rfl
    | ok rows =>
      simp only [scrapePages, hpo] at hu ⊢
      simp at hu
      rcases hu with hu | hu
      · have := scrapePage_fetch_fail site n u hu hf
        rw [hpo] at this
        exact absurd this (by simp)
      · rw [ih hu hf]
        rfl

lemma scrapePods_err_trace (site : Site) (u : Url) :
    ∀ pods : List Pod, (scrapePods site pods).2 = .error (.fetchErr u) →
      ∃ t, (scrapePods site pods).1 = t ++ [u] ∧ site u = none ∧ ∀ v ∈ t, site v ≠ none := by
  intro pods
  induction pods with
  | nil => intro he; simp [scrapePods] at he
  | cons b rest ih =>
    intro he
    cases h1 : b.pClasses[1]? with
    | none => simp [scrapePods, h1] at he
    | some tok =>
      cases h2 : site (book_url b.href) with
      | none =>
        simp only [scrapePods, h1, h2] at he ⊢
        simp at he
        refine ⟨[], by simp [he], ?_, by simp⟩
        rw [← he]
        exact h2
      | some d =>
        cases h3 : d.breadcrumbLis with
        | none => simp [scrapePods, h1, h2, h3] at he
        | some lis =>
          cases h4 : lis[2]? with
          | none => simp [scrapePods, h1, h2, h3, h4] at he
          | some catRaw =>
            cases h5 : parsePrice b.priceText with
            | none => simp [scrapePods, h1, h2, h3, h4, h5] at he
            | some p =>
              simp only [scrapePods, h1, h2, h3, h4, h5] at he ⊢
              cases hout : (scrapePods site rest).2 with
              | ok rows => rw [hout] at he; simp [Except.map] at he
              | error e =>
                rw [hout] at he
                simp [Except.map] at he
                subst he
                obtain ⟨t, ht, hn, hall⟩ := ih hout
                refine ⟨book_url b.href :: t, by simp [ht], hn, ?_⟩
                intro v hv
                rcases List.mem_cons.mp hv with hv | hv
                · rw [hv, h2]; exact fun hc => Option.noConfusion hc
                · exact hall v hv

lemma scrapePage_err_trace (site : Site) (n : Nat) (u : Url)
    (he : (scrapePage site n).2 = .error (.fetchErr u)) :
    ∃ t, (scrapePage site n).1 = t ++ [u] ∧ site u = none ∧ ∀ v ∈ t, site v ≠ none := by
  cases hd : site (pageUrl n) with
  | none =>
    simp only [scrapePage, hd] at he ⊢
    simp at he
    refine ⟨[], by simp [he], ?_, by simp⟩
    rw [← he]
    exact hd
  | some doc =>
    simp only [scrapePage, hd] at he ⊢
    obtain ⟨t, ht, hn, hall⟩ := scrapePods_err_trace site u doc.pods he
    refine ⟨pageUrl n :: t, by simp [ht], hn, ?_⟩
    intro v hv
    rcases List.mem_cons.mp hv with hv | hv
    · rw [hv, hd]; exact fun hc => Option.noConfusion hc
    · exact hall v hv

lemma scrapePages_err_trace (site : Site) (u : Url) :
    ∀ ns : List Nat, (scrapePages site ns).2 = .error (.fetchErr u) →
      ∃ t, (scrapePages site ns).1 = t ++ [u] ∧ site u = none ∧ ∀ v ∈ t, site v ≠ none := by
  intro ns
  induction ns with
  | nil => intro he; simp [scrapePages] at he
  | cons n ns ih =>
    intro he
    cases hpo : (scrapePage site n).2 with
    | error e =>
      simp only [scrapePages, hpo] at he ⊢
      simp at he
      subst he
      exact scrapePage_err_trace site n u (by rw [hpo])
    | ok rows =>
      simp only [scrapePages, hpo] at he ⊢
      cases hout : (scrapePages site ns).2 with
      | ok rows2 => rw [hout] at he; simp [Except.map] at he
      | error e =>
        rw [hout] at he
        simp [Except.map] at he
        subst he
        obtain ⟨t, ht, hn, hall⟩ := ih hout
        refine ⟨(scrapePage site n).1 ++ t, by simp [ht], hn, ?_⟩
        intro v hv
        rcases List.mem_append.mp hv with hv | hv
        · intro hc
          have := scrapePage_fetch_fail site n v hv hc
          rw [hpo] at this
          exact absurd this (by simp)
        · exact hall v hv

/-- C1 (amended): on the spec's single-book fixture (the pages 2-5 that
the hard-coded loop also visits being present but empty), `collect` then
`normalize` yields exactly one row with title "A Light in the Attic",
price 51.77, rating 3, category "Poetry", availability "In stock"; the
resolved absolute detail URL is fetched (it appears in the request trace)
but the output table carries no `detail_url` column — its columns are
exactly `dfColumns`. -/
theorem end_to_end_fixture :
    (load_data fixtureSite).2 =
      .ok [⟨"A Light in the Attic", 5177/100, "In stock", some 3, "Poetry"⟩]
    ∧ (load_data fixtureSite).1 =
      [pageUrl 1, book_url "a-light-in-the-attic_1000/index.html",
       pageUrl 2, pageUrl 3, pageUrl 4, pageUrl 5]
    ∧ "detail_url" ∉ dfColumns :=
  ⟨rfl, rfl, by decide⟩

/-- C1 counterexample: the claim requires the output row to carry the
resolved `detail_url`, but at the claim's own fixture the pipeline
succeeds with rows whose columns are only Title, Price, Availability,
Rating, Category — no URL field exists in the output. -/
theorem end_to_end_fixture_cex :
    (load_data fixtureSite).2 =
      .ok [⟨"A Light in the Attic", 5177/100, "In stock", some 3, "Poetry"⟩]
    ∧ "detail_url" ∉ dfColumns :=
  ⟨rfl, by decide⟩

/-- C2 counterexample: a record with rating token "Six" does not make
normalization fail — `load_data` succeeds and the row's rating is the
missing value `none` (pandas NaN), not a `FormatError`. -/
theorem rating_six_no_error :
    rating_map "Six" = none
    ∧ (load_data siteSix).2 = .ok [⟨"T", 10, "In stock", none, "Cat"⟩] :=
  ⟨rfl, rfl⟩

/-- C2 (amended): the fixed lookup sends "One".."Five" to 1..5, and every
token outside that set to the missing value `none` — never to some other
number and never to an error: whenever the scrape succeeds, `load_data`
succeeds with the rating column mapped row-wise. -/
theorem rating_normalization :
    rating_map "One" = some 1 ∧ rating_map "Two" = some 2
    ∧ rating_map "Three" = some 3 ∧ rating_map "Four" = some 4
    ∧ rating_map "Five" = some 5
    ∧ (∀ t : String, t ∉ (["One", "Two", "Three", "Four", "Five"] : List String) →
        rating_map t = none)
    ∧ (∀ r : RawRow, (normalizeRow r).rating = rating_map r.rating)
    ∧ (∀ (site : Site) (rs : List RawRow), (scrape_books site).2 = .ok rs →
        (load_data site).2 = .ok (rs.map normalizeRow)) := by
  refine ⟨rfl, rfl, rfl, rfl, rfl, ?_, ?_, ?_⟩
  · intro t ht
    simp only [List.mem_cons, List.not_mem_nil, or_false] at ht
    push_neg at ht
    obtain ⟨n1, n2, n3, n4, n5⟩ := ht
    simp [rating_map, n1, n2, n3, n4, n5]
  · intro r
    rfl
  · intro site rs h
    simp [load_data, h, Except.map]

/-- C2 witness: the amended behaviour at concrete inputs — "Zero" is
unmapped, and on the "Six" fixture the whole pipeline succeeds with the
row-wise mapped table. -/
theorem rating_normalization_witness :
    rating_map "Zero" = none
    ∧ (load_data siteSix).2 =
        .ok (([⟨"T", 10, "In stock", "Six", "Cat"⟩] : List RawRow).map normalizeRow) :=
  ⟨rating_normalization.2.2.2.2.2.1 "Zero" (by decide),
   rating_normalization.2.2.2.2.2.2.2 siteSix [⟨"T", 10, "In stock", "Six", "Cat"⟩] rfl⟩

/-- C4 counterexample: neither the raw nor the normalized table has a
`detail_url` field that could be preserved — the columns are exactly
Title, Price, Availability, Rating, Category. -/
theorem normalize_frame_cex :
    dfColumns = ["Title", "Price", "Availability", "Rating", "Category"]
    ∧ "detail_url" ∉ dfColumns :=
  ⟨rfl, by decide⟩

/-- C4 (amended): normalization leaves title, price, availability and
category of every row byte-for-byte unchanged and only maps the rating
token through `rating_map`; no field is added or removed (both tables
have the `dfColumns` columns, and no `detail_url` field exists). -/
theorem normalize_frame (r : RawRow) :
    (normalizeRow r).title = r.title ∧ (normalizeRow r).price = r.price
    ∧ (normalizeRow r).availability = r.availability
    ∧ (normalizeRow r).category = r.category
    ∧ (normalizeRow r).rating = rating_map r.rating := by
  simp [normalizeRow]

/-- C4 witness: frame preservation at a concrete row. -/
theorem normalize_frame_witness :
    (normalizeRow ⟨"A", 1, "In stock", "One", "Poetry"⟩).title = "A"
    ∧ (normalizeRow ⟨"A", 1, "In stock", "One", "Poetry"⟩).price = 1
    ∧ (normalizeRow ⟨"A", 1, "In stock", "One", "Poetry"⟩).availability = "In stock"
    ∧ (normalizeRow ⟨"A", 1, "In stock", "One", "Poetry"⟩).category = "Poetry"
    ∧ (normalizeRow ⟨"A", 1, "In stock", "One", "Poetry"⟩).rating = rating_map "One" :=
  normalize_frame ⟨"A", 1, "In stock", "One", "Poetry"⟩

/-- C8 counterexample: all five listing pages fetch fine but contain no
product-pod container; the run succeeds with an empty table instead of
failing with a ParseError. -/
theorem podless_listing_ok : (scrape_books sitePodless).2 = .ok [] := rfl

/-- C8 (amended): a detail page lacking the breadcrumb `ul` aborts the
run with AttributeError (spec ParseError), and a breadcrumb with fewer
than three `li` items aborts with IndexError (spec ParseError); but a
listing page with no product pod contributes no records and no error —
collection continues. -/
theorem structural_mismatch (site : Site) (book : Pod) (rest : List Pod)
    (tok : String) (d : Doc)
    (h1 : book.pClasses[1]? = some tok)
    (h2 : site (book_url book.href) = some d) :
    (d.breadcrumbLis = none → (scrapePods site (book :: rest)).2 = .error .attrErr)
    ∧ (∀ lis : List String, d.breadcrumbLis = some lis → lis.length ≤ 2 →
        (scrapePods site (book :: rest)).2 = .error .indexErr)
    ∧ (∀ (n : Nat) (doc : Doc), site (pageUrl n) = some doc → doc.pods = [] →
        (scrapePage site n).2 = .ok []) := by
  refine ⟨?_, ?_, ?_⟩
  · intro h3
    simp [scrapePods, h1, h2, h3]
  · intro lis h3 hlen
    have h4 : lis[2]? = none := by
      rw [List.getElem?_eq_none_iff]
      exact hlen
    simp [scrapePods, h1, h2, h3, h4]
  · intro n doc hd hpods
    simp [scrapePage, hd, hpods, scrapePods]

/-- C8 witness: the three amended behaviours at concrete sites — a
missing breadcrumb aborts with AttributeError, a two-item breadcrumb
aborts with IndexError, and a pod-less listing page yields no rows and
no error. -/
theorem structural_mismatch_witness :
    (scrapePods siteNoCrumb [badPod]).2 = .error .attrErr
    ∧ (scrapePods siteShortCrumb [badPod]).2 = .error .indexErr
    ∧ (scrapePage siteNoCrumb 1).2 = .ok [] :=
  ⟨(structural_mismatch siteNoCrumb badPod [] "Two" ⟨[], none⟩ rfl rfl).1 rfl,
   (structural_mismatch siteShortCrumb badPod [] "Two" ⟨[], some ["Home", "Books"]⟩ rfl rfl).2.1
     ["Home", "Books"] rfl (by decide),
   (structural_mismatch siteNoCrumb badPod [] "Two" ⟨[], none⟩ rfl rfl).2.2 1 emptyListingDoc rfl rfl⟩

/-- C10 counterexample: "£ 51.77" — a one-character symbol followed by a
space — does yield the displayed price 51.77: after the first code point
is dropped, Python's `float` strips the leading space; the claim asserts
this input does not yield the displayed price. -/
theorem price_first_char_cex : parsePrice "£ 51.77" = some (5177/100 : ℚ) := rfl

/-- C10 (amended): line 34 removes exactly the first code point whatever
it is — any single character followed by a string `float` accepts parses
to that value ("$51.77" → 51.77, "X0.00" → 0.00); an absent symbol loses
the first digit ("51.77" → 1.77, not the displayed 51.77); and a symbol
followed by a space still yields the displayed price ("£ 51.77" → 51.77)
because `float` tolerates leading whitespace. -/
theorem price_first_char :
    (∀ (c : Char) (s : String) (v : ℚ), pyFloat s = some v →
      parsePrice ⟨c :: s.data⟩ = some v)
    ∧ parsePrice "$51.77" = some (5177/100 : ℚ)
    ∧ parsePrice "X0.00" = some 0
    ∧ parsePrice "51.77" = some (177/100 : ℚ)
    ∧ (177/100 : ℚ) ≠ (5177/100 : ℚ)
    ∧ parsePrice "£ 51.77" = some (5177/100 : ℚ) := by
  refine ⟨?_, rfl, rfl, rfl, by norm_num, rfl⟩
  intro c s v h
  exact h

/-- C10 witness: dropping a concrete one-character symbol. -/
theorem price_first_char_witness : parsePrice ⟨'€' :: "7.50".data⟩ = some (15/2 : ℚ) :=
  price_first_char.1 '€' "7.50" (15/2) rfl

/-- C3 (confirmed): the price is obtained by dropping the leading
currency symbol and parsing the remainder as a decimal number —
"£51.77" → 51.77, "£0.00" → 0.00, and when the remainder is not a valid
number ("£abc") the run fails with ValueError (spec FormatError); for a
record being processed, a parseable price text yields a head row carrying
exactly the parsed value, an unparseable one aborts the run. -/
theorem price_parsing (site : Site) (book : Pod) (rest : List Pod)
    (tok : String) (d : Doc) (lis : List String) (catRaw : String)
    (h1 : book.pClasses[1]? = some tok)
    (h2 : site (book_url book.href) = some d)
    (h3 : d.breadcrumbLis = some lis)
    (h4 : lis[2]? = some catRaw) :
    parsePrice "£51.77" = some (5177/100 : ℚ)
    ∧ parsePrice "£0.00" = some 0
    ∧ parsePrice "£abc" = none
    ∧ (parsePrice book.priceText = none →
        (scrapePods site (book :: rest)).2 = .error (.valueErr (pyDrop1 book.priceText)))
    ∧ (∀ (v : ℚ) (rows : List RawRow), parsePrice book.priceText = some v →
        (scrapePods site (book :: rest)).2 = .ok rows →
        ∃ r rs, rows = r :: rs ∧ r.price = v) := by
  refine ⟨rfl, rfl, rfl, ?_, ?_⟩
  · intro h5
    simp [scrapePods, h1, h2, h3, h4, h5]
  · intro v rows h5 hok
    simp only [scrapePods, h1, h2, h3, h4, h5] at hok
    cases hout : (scrapePods site rest).2 with
    | error e =>
      rw [hout] at hok
      simp [Except.map] at hok
    | ok rs =>
      rw [hout] at hok
      simp only [Except.map, Except.ok.injEq] at hok
      exact ⟨_, rs, hok.symm, rfl⟩

/-- C3 witness: the fixture book's price is parsed to 51.77 and placed in
the head row; the malformed "£abc" aborts the run with the ValueError
payload "abc". -/
theorem price_parsing_witness :
    (∃ r rs, ([⟨"A Light in the Attic", 5177/100, "In stock", "Three", "Poetry"⟩] : List RawRow)
        = r :: rs ∧ r.price = 5177/100)
    ∧ (scrapePods sitePriceBad [badPricePod]).2 = .error (.valueErr "abc") :=
  ⟨(price_parsing fixtureSite fixturePod [] "Three" fixtureDetailDoc
      ["Home", "Books", " Poetry ", "A Light in the Attic"] " Poetry " rfl rfl rfl rfl).2.2.2.2
      (5177/100) [⟨"A Light in the Attic", 5177/100, "In stock", "Three", "Poetry"⟩] rfl rfl,
   (price_parsing sitePriceBad badPricePod [] "One"
      ⟨[], some ["Home", "Books", "C"]⟩ ["Home", "Books", "C"] "C" rfl rfl rfl rfl).2.2.2.1 rfl⟩

/-- C5 (confirmed): if any attempted fetch fails (in particular a detail
page's), the entire `collect` invocation fails with that FetchError and
returns no record sequence at all — the outcome is the error, not a
partial row list, and no book is skipped. -/
theorem fetch_failure_atomic (site : Site) (u : Url)
    (hu : u ∈ (scrape_books site).1) (hf : site u = none) :
    (scrape_books site).2 = .error (.fetchErr u) :=
  scrapePages_fetch_fail site u pageRange hu hf

/-- C5 witness: on the fixture whose detail page cannot be fetched, the
whole run fails with that URL's FetchError. -/
theorem fetch_failure_atomic_witness :
    (scrape_books siteDetailFail).2 =
      .error (.fetchErr (book_url "a-light-in-the-attic_1000/index.html")) :=
  fetch_failure_atomic siteDetailFail (book_url "a-light-in-the-attic_1000/index.html")
    (by decide) rfl

/-- C6 counterexample: line 28 removes every occurrence of "../../../",
not only a leading one — on the relative link "a/../../../b.html", which
does not start with the prefix, the spec's leading-strip resolution keeps
the link verbatim while the code deletes the inner occurrence. -/
theorem detail_url_cex :
    book_url "a/../../../b.html" = "http://books.toscrape.com/catalogue/a/b.html"
    ∧ specDetailUrl "a/../../../b.html" = "http://books.toscrape.com/catalogue/a/../../../b.html"
    ∧ book_url "a/../../../b.html" ≠ specDetailUrl "a/../../../b.html" :=
  ⟨rfl, rfl, by decide⟩

/-- C6 (amended): the detail URL is the catalogue base path prepended to
the relative link with every occurrence of "../../../" removed; when the
pattern occurs exactly once, leading, this agrees with the spec's
leading-prefix strip, and a link without any occurrence is preserved
verbatim. -/
theorem detail_url_resolution (rest : List Char) (href : String)
    (h1 : ¬ ("../../../".data <:+: rest))
    (h2 : ¬ ("../../../".data <:+: href.data)) :
    book_url ⟨"../../../".data ++ rest⟩
      = "http://books.toscrape.com/catalogue/" ++ (⟨rest⟩ : String)
    ∧ book_url href = "http://books.toscrape.com/catalogue/" ++ href
    ∧ book_url ⟨"../../../".data ++ rest⟩ = specDetailUrl ⟨"../../../".data ++ rest⟩ := by
  have hd : ("../../../".data : List Char) ≠ [] := by decide
  have hhead : pyReplaceL "../../../".data [] ("../../../".data ++ rest) = rest := by
    rw [pyReplaceL_head_only "../../../".data [] rest hd h1]
    rfl
  have hkeep : pyReplaceL "../../../".data [] href.data = href.data :=
    pyReplaceL_no_occ "../../../".data [] href.data h2
  refine ⟨?_, ?_, ?_⟩
  · show "http://books.toscrape.com/catalogue/" ++
      (⟨pyReplaceL "../../../".data [] ("../../../".data ++ rest)⟩ : String) = _
    rw [hhead]
  · show "http://books.toscrape.com/catalogue/" ++
      (⟨pyReplaceL "../../../".data [] href.data⟩ : String) = _
    rw [hkeep]
  · show "http://books.toscrape.com/catalogue/" ++
      (⟨pyReplaceL "../../../".data [] ("../../../".data ++ rest)⟩ : String) = specDetailUrl _
    rw [hhead]
    show _ = "http://books.toscrape.com/catalogue/" ++
      (if "../../../".data <+: ("../../../".data ++ rest) then
        (⟨("../../../".data ++ rest).drop 9⟩ : String) else ⟨"../../../".data ++ rest⟩)
    rw [if_pos (List.prefix_append "../../../".data rest),
        show ("../../../".data ++ rest).drop 9 = rest from List.drop_left "../../../".data rest]

/-- C6 witness: resolution at a concrete leading-prefix link and a
concrete prefix-free link. -/
theorem detail_url_resolution_witness :
    book_url ⟨"../../../".data ++ "x_1/index.html".data⟩
      = "http://books.toscrape.com/catalogue/" ++ ("x_1/index.html".data : List Char).asString
      ∧ book_url "y_2/index.html" = "http://books.toscrape.com/catalogue/" ++ "y_2/index.html"
      ∧ book_url ⟨"../../../".data ++ "x_1/index.html".data⟩
        = specDetailUrl ⟨"../../../".data ++ "x_1/index.html".data⟩ :=
  detail_url_resolution "x_1/index.html".data "y_2/index.html" (by decide) (by decide)

/-- C7 (confirmed): for a site where every visited page and every book
resolves, the output sequence is exactly the concatenation, over listing
pages in ascending order, of each page's books in document order. -/
theorem collect_ordering (site : Site) (docs : Nat → Doc)
    (hd : ∀ n ∈ pageRange, site (pageUrl n) = some (docs n))
    (h : ∀ n ∈ pageRange, ∀ b ∈ (docs n).pods, (rowOf site b).isSome) :
    (scrape_books site).2 =
      .ok ((pageRange.map (fun n => (docs n).pods.filterMap (rowOf site))).flatten) := by
  rw [scrape_books, scrapePages_eq_ok site pageRange docs hd h]

/-- C7 witness: on the 2-pages-of-3-books fixture the rows come out in
traversal order p1b1, p1b2, p1b3, p2b1, p2b2, p2b3. -/
theorem collect_ordering_witness :
    (scrape_books ordSite).2 = .ok
      [⟨"p1b1", 1, "In stock", "One", "Fiction"⟩, ⟨"p1b2", 1, "In stock", "One", "Fiction"⟩,
       ⟨"p1b3", 1, "In stock", "One", "Fiction"⟩, ⟨"p2b1", 1, "In stock", "One", "Fiction"⟩,
       ⟨"p2b2", 1, "In stock", "One", "Fiction"⟩, ⟨"p2b3", 1, "In stock", "One", "Fiction"⟩] :=
  (collect_ordering ordSite ordDocs (by decide) (by decide)).trans rfl

/-- C9 (confirmed): a run over a site where all five pages resolve with
`b` books each completes and performs exactly 5 × (1 + b) fetches — one
per listing page plus one per book found (the trace is the complete list
of side effects of the model); and a run that fails on a fetch performs
no fetch after the failing one: the failing URL closes the trace and
every earlier fetch had succeeded. -/
theorem fetch_effect_count (site : Site) :
    (∀ (docs : Nat → Doc) (b : Nat),
      (∀ n ∈ pageRange, site (pageUrl n) = some (docs n)) →
      (∀ n ∈ pageRange, ∀ p ∈ (docs n).pods, (rowOf site p).isSome) →
      (∀ n ∈ pageRange, (docs n).pods.length = b) →
      (∃ rows, (scrape_books site).2 = .ok rows)
        ∧ (scrape_books site).1.length = 5 * (1 + b))
    ∧ (∀ u : Url, (scrape_books site).2 = .error (.fetchErr u) →
        ∃ t, (scrape_books site).1 = t ++ [u] ∧ site u = none ∧ ∀ v ∈ t, site v ≠ none) := by
  constructor
  · intro docs b hd h hlen
    have heq := scrapePages_eq_ok site pageRange docs hd h
    rw [scrape_books, heq]
    refine ⟨⟨_, rfl⟩, ?_⟩
    have l1 := hlen 1 (by decide)
    have l2 := hlen 2 (by decide)
    have l3 := hlen 3 (by decide)
    have l4 := hlen 4 (by decide)
    have l5 := hlen 5 (by decide)
    simp [pageRange, l1, l2, l3, l4, l5]
    ring
  · intro u he
    exact scrapePages_err_trace site u pageRange he

/-- C9 witness: the uniform one-book-per-page fixture completes in
5 × (1 + 1) fetches, and the failing-detail fixture's trace ends at the
failing URL with every earlier fetch successful. -/
theorem fetch_effect_count_witness :
    (scrape_books uniSite).1.length = 5 * (1 + 1)
    ∧ (∃ t, (scrape_books siteDetailFail).1
          = t ++ [book_url "a-light-in-the-attic_1000/index.html"]
        ∧ siteDetailFail (book_url "a-light-in-the-attic_1000/index.html") = none
        ∧ ∀ v ∈ t, siteDetailFail v ≠ none) :=
  ⟨((fetch_effect_count uniSite).1 uniDocs 1 (by decide) (by decide) (by decide)).2,
   (fetch_effect_count siteDetailFail).2 (book_url "a-light-in-the-attic_1000/index.html") rfl⟩
